import Mathlib

/-!
Verification of the HireEase mobile client authentication core.

The development shallowly embeds the session coordinator
(src/contexts/AuthContext.tsx), the HTTP client wrapper
(src/services/apiClient.ts), the change-password error handler
(src/screens/ChangePasswordScreen.tsx), the screen-flow effect
(src/navigation/AppNavigator.tsx) and the password strength classifier
(src/components/PasswordStrengthIndicator.tsx).

Asynchronous storage (AsyncStorage) is modelled as a pair of optional
string cells (keys auth_token and auth_user) together with an explicit
fault specification saying which storage operations reject; JavaScript
exceptions are modelled by explicit outcome fields.  JavaScript
truthiness of a string-or-null value is modelled by `truthy` (null and
the empty string are falsy).
-/

set_option autoImplicit false

namespace HireEase

/-- Storage key for the JWT token (apiClient.ts line 15). -/
def TOKEN_KEY : String := "auth_token"

/-- Storage key for the serialized user record (AuthContext.tsx line 17). -/
def USER_KEY : String := "auth_user"

/-- User record, from the repository type definitions: fields
`_id`, `email`, `createdAt`, `updatedAt` (all strings).  The `_id`
field is renamed `mongoId` because a Lean field may not start with an
underscore. -/
structure User where
  mongoId : String
  email : String
  createdAt : String
  updatedAt : String
deriving DecidableEq, Repr

/-- The persisted key-value store: value under `auth_token` and value
under `auth_user`; `none` models an absent key. -/
structure Storage where
  authToken : Option String
  authUser : Option String
deriving DecidableEq, Repr

/-- Which AsyncStorage operations reject.  `false` everywhere models a
healthy store. -/
structure StorageFaults where
  getTokenFails : Bool
  getUserFails : Bool
  setTokenFails : Bool
  setUserFails : Bool
  removeFails : Bool
deriving DecidableEq, Repr

/-- A healthy store: no storage operation rejects. -/
def noFaults : StorageFaults := ⟨false, false, false, false, false⟩

/-- JavaScript truthiness of a `string | null` value: `null` and the
empty string are falsy. -/
def truthy : Option String → Bool
  | none => false
  | some s => s != ""

/-- Strip an expected literal character sequence from the front of the
input; `none` when the input does not start with it. -/
def stripLit : List Char → List Char → Option (List Char)
  | [], rest => some rest
  | _ :: _, [] => none
  | p :: ps, c :: rest => if c = p then stripLit ps rest else none

/-- Read characters up to the next double quote; returns the content
and the remainder after the closing quote. -/
def takeUntilQuote : List Char → Option (List Char × List Char)
  | [] => none
  | c :: rest =>
    if c = '"' then some ([], rest)
    else
      match takeUntilQuote rest with
      | some (acc, rem) => some (c :: acc, rem)
      | none => none

/-- Read a double-quoted string. -/
def scanQuoted : List Char → Option (String × List Char)
  | '"' :: rest =>
    match takeUntilQuote rest with
    | some (acc, rem) => some (String.mk acc, rem)
    | none => none
  | _ => none

/-- Read a literal label followed by a quoted string value. -/
def parseLabeled (label : String) (cs : List Char) : Option (String × List Char) :=
  match stripLit label.toList cs with
  | some rest => scanQuoted rest
  | none => none

/-- JSON.parse specialised to the canonical user-record serialisation
this client itself writes under `auth_user` (the JSON.stringify of a
`User`); any string not of that exact shape is treated as malformed.
The claims about session restore only depend on the stored record
either being the canonically serialised one or failing to parse. -/
def parseUserJson (s : String) : Option User :=
  match parseLabeled "\x7b\"_id\":" s.toList with
  | none => none
  | some (idv, r1) =>
    match parseLabeled ",\"email\":" r1 with
    | none => none
    | some (em, r2) =>
      match parseLabeled ",\"createdAt\":" r2 with
      | none => none
      | some (ca, r3) =>
        match parseLabeled ",\"updatedAt\":" r3 with
        | none => none
        | some (ua, r4) =>
          if r4 = ['\x7d'] then some ⟨idv, em, ca, ua⟩ else none

/-- JSON.stringify of a user record (fields assumed free of characters
needing escapes, as produced by the backend identifiers and dates). -/
def serializeUser (u : User) : String :=
  "\x7b\"_id\":\"" ++ u.mongoId ++ "\",\"email\":\"" ++ u.email ++
    "\",\"createdAt\":\"" ++ u.createdAt ++ "\",\"updatedAt\":\"" ++ u.updatedAt ++ "\"\x7d"

/-- Result of a `checkAuthStatus` (restoreSession) run: the in-memory
user afterwards, the storage afterwards, the loading flag on
completion, and whether the returned promise rejected. -/
structure RestoreOutcome where
  user : Option User
  store : Storage
  loading : Bool
  threw : Bool
deriving DecidableEq, Repr

/-- The catch block of `checkAuthStatus` (AuthContext.tsx lines 70-73):
`await AsyncStorage.multiRemove([TOKEN_KEY, USER_KEY])`; if that
removal itself rejects, the rejection escapes the catch block and the
promise rejects (the `finally` still sets `loading` to false). -/
def restoreCatch (st : Storage) (f : StorageFaults) : RestoreOutcome :=
  if f.removeFails then ⟨none, st, false, true⟩
  else ⟨none, ⟨none, none⟩, false, false⟩

/-- `checkAuthStatus` (AuthContext.tsx lines 57-77): reads the token,
then the user record; if both are truthy, parses the record and sets
the user; any exception (read rejection or parse failure) lands in the
catch block which removes both keys. -/
def checkAuthStatus (st : Storage) (f : StorageFaults) : RestoreOutcome :=
  if f.getTokenFails then restoreCatch st f
  else if f.getUserFails then restoreCatch st f
  else if truthy st.authToken && truthy st.authUser then
    match parseUserJson (st.authUser.getD "") with
    | some u => ⟨some u, st, false, false⟩
    | none => restoreCatch st f
  else ⟨none, st, false, false⟩

/-- A field-level validation error carried in an error body, from the
repository type definitions. -/
structure ValidationError where
  field : String
  message : String
deriving DecidableEq, Repr

/-- The `error` member of a backend error body.  `message` is the
server-supplied message (the empty string also models a missing
message: both are falsy under the `||` the code applies); `errors` is
the optional field-error list. -/
structure ApiErrInfo where
  message : String
  errors : Option (List ValidationError)
deriving DecidableEq, Repr

/-- A backend error body as read by `err.response.data`; the `error`
member may be absent (the code accesses it with optional chaining). -/
structure ErrorBody where
  error : Option ApiErrInfo
deriving DecidableEq, Repr

/-- The errors `handleAuthError` can receive: an axios error without a
response (network unreachable), an axios error carrying a response
with a status and a body, or a non-axios exception (for example a
storage write rejection or a TypeError on a malformed success body). -/
inductive AuthErr where
  | noResponse
  | httpError (status : Nat) (body : ErrorBody)
  | other
deriving DecidableEq, Repr

/-- `handleAuthError` (AuthContext.tsx lines 194-230): classifies an
error into a user-facing message by status code. -/
def handleAuthError : AuthErr → String
  | .noResponse => "Unable to connect to server. Please check your internet connection."
  | .other => "An unexpected error occurred. Please try again."
  | .httpError status body =>
    if status = 400 then
      match body.error with
      | some i =>
        match i.errors with
        | some (v :: _) => v.message
        | _ => if i.message ≠ "" then i.message else "Invalid request. Please check your input."
      | none => "Invalid request. Please check your input."
    else if status = 401 then "Invalid email or password."
    else if status = 409 then "An account with this email already exists."
    else if status = 500 then "Something went wrong. Please try again later."
    else
      match body.error with
      | some i => if i.message ≠ "" then i.message else "An unexpected error occurred."
      | none => "An unexpected error occurred."

/-- Result of a `login` or `register` run: the returned structured
result (`success` and optional `error` field), the in-memory user and
error state afterwards, the loading flag on completion, the storage
afterwards, and the endpoint and request body that were posted. -/
structure AuthOpOutcome where
  success : Bool
  errorRet : Option String
  user : Option User
  errState : Option String
  loading : Bool
  store : Storage
  endpoint : String
  body : String × String
deriving DecidableEq, Repr

/-- `login` (AuthContext.tsx lines 126-159).  `backend` is the outcome
of the awaited POST to /auth/login: `Except.ok (user, token)` on a 2xx
response, `Except.error e` when the request rejects.  `u0` is the
in-memory user before the call (left as is on failure, since `setUser`
only runs on the success path).  On success the token and the
serialized user record are written; a write rejection lands in the
catch block, after which writes already performed remain. -/
def login (email password : String) (st : Storage) (f : StorageFaults)
    (backend : Except AuthErr (User × String)) (u0 : Option User) : AuthOpOutcome :=
  match backend with
  | .error e =>
    let m := handleAuthError e
    ⟨false, some m, u0, some m, false, st, "/auth/login", (email, password)⟩
  | .ok (u, tok) =>
    if f.setTokenFails then
      let m := handleAuthError .other
      ⟨false, some m, u0, some m, false, st, "/auth/login", (email, password)⟩
    else if f.setUserFails then
      let m := handleAuthError .other
      ⟨false, some m, u0, some m, false, { st with authToken := some tok },
        "/auth/login", (email, password)⟩
    else
      ⟨true, none, some u, none, false, ⟨some tok, some (serializeUser u)⟩,
        "/auth/login", (email, password)⟩

/-- `register` (AuthContext.tsx lines 85-118): identical logic to
`login` but posting to /auth/register. -/
def register (email password : String) (st : Storage) (f : StorageFaults)
    (backend : Except AuthErr (User × String)) (u0 : Option User) : AuthOpOutcome :=
  match backend with
  | .error e =>
    let m := handleAuthError e
    ⟨false, some m, u0, some m, false, st, "/auth/register", (email, password)⟩
  | .ok (u, tok) =>
    if f.setTokenFails then
      let m := handleAuthError .other
      ⟨false, some m, u0, some m, false, st, "/auth/register", (email, password)⟩
    else if f.setUserFails then
      let m := handleAuthError .other
      ⟨false, some m, u0, some m, false, { st with authToken := some tok },
        "/auth/register", (email, password)⟩
    else
      ⟨true, none, some u, none, false, ⟨some tok, some (serializeUser u)⟩,
        "/auth/register", (email, password)⟩

/-- Result of a `logout` run. -/
structure LogoutOutcome where
  user : Option User
  errState : Option String
  loading : Bool
  store : Storage
  threw : Bool
deriving DecidableEq, Repr

/-- `logout` (AuthContext.tsx lines 165-180): removes both keys, then
clears `user` and `error`.  A removal rejection is swallowed by the
catch block (the caller never sees it), but then `setUser(null)` and
`setError(null)` are skipped; the `finally` always resets loading. -/
def logout (st : Storage) (f : StorageFaults) (u0 : Option User) (e0 : Option String) :
    LogoutOutcome :=
  if f.removeFails then ⟨u0, e0, false, st, false⟩
  else ⟨none, none, false, ⟨none, none⟩, false⟩

/-- A storage operation attempted by the HTTP client wrapper. -/
inductive StorageOp where
  | removeItem (key : String)
deriving DecidableEq, Repr

/-- An axios error as seen by the response interceptor: `status` is
`some s` exactly when a response with HTTP status `s` was received;
`errId` stands for the identity of the error object, so that
"rejects with the same error object" is expressible. -/
structure AxiosErrorM where
  status : Option Nat
  errId : Nat
deriving DecidableEq, Repr

/-- The response-error interceptor of the HTTP client wrapper
(apiClient.ts lines 67-98): on a 401 response it attempts exactly one
`removeItem(TOKEN_KEY)` (any storage rejection there is swallowed),
then rejects with the very error it received; on everything else it
attempts no storage operation and rejects with the same error.  The
first component lists the storage operations attempted, the second is
the propagated error. -/
def responseErrorInterceptor (e : AxiosErrorM) : List StorageOp × AxiosErrorM :=
  if e.status = some 401 then ([.removeItem TOKEN_KEY], e) else ([], e)

/-- JavaScript String.prototype.toLowerCase restricted to the ASCII
range (the source only compares against the ASCII text
"current password"). -/
def lowerStr (s : String) : String := String.mk (s.toList.map Char.toLower)

/-- Does the list start with the given pattern? -/
def listStartsWith : List Char → List Char → Bool
  | [], _ => true
  | _ :: _, [] => false
  | p :: ps, c :: cs => p = c && listStartsWith ps cs

/-- JavaScript String.prototype.includes: substring containment. -/
def strIncludes (s pat : String) : Bool :=
  let rec go : List Char → Bool
    | [] => pat.toList.isEmpty
    | c :: cs => listStartsWith pat.toList (c :: cs) || go cs
  go s.toList

/-- A JavaScript value occupying `err.response.data.error`: absent,
a plain string, or the uniform backend error object
`\x7bmessage, statusCode, errors?\x7d`. -/
inductive JsVal where
  | undef
  | str (s : String)
  | errObj (message : String) (statusCode : Nat)
deriving DecidableEq, Repr

/-- The response attached to an axios error, as read by the
change-password handler: the HTTP status and the `data.error` member. -/
structure CPResp where
  status : Nat
  dataError : JsVal
deriving DecidableEq, Repr

/-- An error caught by the change-password handler: the optional
response and the error message string (compared against
"Network Error"). -/
structure CPErr where
  response : Option CPResp
  message : String
deriving DecidableEq, Repr

/-- Observable outcome of the change-password catch block: the error
state it sets (a JavaScript value, since the code passes
`err.response.data.error` to `setError` unchecked), whether `logout()`
was invoked, and whether an exception escaped the catch block
(rejecting the handler). -/
structure CPOutcome where
  errMsg : Option JsVal
  calledLogout : Bool
  threw : Bool
deriving DecidableEq, Repr

/-- The catch block of `handleChangePassword`
(ChangePasswordScreen.tsx lines 155-173).  On a 401 it reads
`err.response?.data?.error` into `errorMessage` and evaluates
`errorMessage && errorMessage.toLowerCase().includes('current password')`:
when `errorMessage` is the uniform error object, `toLowerCase` is not
a function and the evaluation throws a TypeError that escapes the
catch block, so neither branch runs. -/
def handleChangePasswordCatch (err : CPErr) : CPOutcome :=
  match err.response with
  | some r =>
    if r.status = 401 then
      match r.dataError with
      | .errObj _ _ => ⟨none, false, true⟩
      | .str s =>
        if s != "" && strIncludes (lowerStr s) "current password" then
          ⟨some (.str "Current password is incorrect"), false, false⟩
        else ⟨none, true, false⟩
      | .undef => ⟨none, true, false⟩
    else
      match r.dataError with
      | .errObj m sc => ⟨some (.errObj m sc), false, false⟩
      | .str s =>
        if s != "" then ⟨some (.str s), false, false⟩
        else if err.message = "Network Error" then
          ⟨some (.str "Unable to connect. Please check your internet connection."), false, false⟩
        else ⟨some (.str "An error occurred. Please try again."), false, false⟩
      | .undef =>
        if err.message = "Network Error" then
          ⟨some (.str "Unable to connect. Please check your internet connection."), false, false⟩
        else ⟨some (.str "An error occurred. Please try again."), false, false⟩
  | none =>
    ⟨some (.str "Unable to connect. Please check your internet connection."), false, false⟩

/-- Screens of the unauthenticated flow (AppNavigator.tsx line 25). -/
inductive AuthScreen where
  | login
  | register
  | emailVerification
  | forgotPassword
  | verifyCode
  | resetPassword
deriving DecidableEq, Repr

/-- Screens of the authenticated flow (AppNavigator.tsx line 26). -/
inductive MainScreen where
  | home
  | settings
  | changePassword
deriving DecidableEq, Repr

/-- Local navigator state (AppNavigator.tsx lines 34-38). -/
structure NavState where
  authScreen : AuthScreen
  mainScreen : MainScreen
  verificationEmail : String
  resetEmail : String
  resetCode : String
deriving DecidableEq, Repr

/-- Body of the effect at AppNavigator.tsx lines 41-45: when
`isAuthenticated` holds, reset the main screen to home. -/
def authEffect (isAuthenticated : Bool) (s : NavState) : NavState :=
  if isAuthenticated then { s with mainScreen := .home } else s

/-- The effect has `[isAuthenticated]` as its dependency list, so it
re-runs exactly when `isAuthenticated` changed between renders. -/
def authChangeStep (prevAuth currAuth : Bool) (s : NavState) : NavState :=
  if currAuth ≠ prevAuth then authEffect currAuth s else s

/-- Password strength levels (PasswordStrengthIndicator.tsx line 13). -/
inductive PasswordStrength where
  | weak
  | medium
  | strong
deriving DecidableEq, Repr

/-- The special characters of the regex at
PasswordStrengthIndicator.tsx line 39. -/
def specialChars : List Char :=
  ['!', '@', '#', '$', '%', '^', '&', '*', '(', ')', ',', '.', '?', '\"', ':',
    '\x7b', '\x7d', '|', '<', '>']

/-- Number of the four character classes present in the password
(the `varietyCount` of PasswordStrengthIndicator.tsx lines 36-42). -/
def varietyCount (password : String) : Nat :=
  let hasUpperCase := password.toList.any fun c => 'A' ≤ c && c ≤ 'Z'
  let hasLowerCase := password.toList.any fun c => 'a' ≤ c && c ≤ 'z'
  let hasNumbers := password.toList.any fun c => '0' ≤ c && c ≤ '9'
  let hasSpecialChar := password.toList.any fun c => specialChars.contains c
  (([hasUpperCase, hasLowerCase, hasNumbers, hasSpecialChar]).filter (fun b => b)).length

/-- `calculatePasswordStrength` (PasswordStrengthIndicator.tsx lines
27-45). -/
def calculatePasswordStrength (password : String) : PasswordStrength :=
  if password.length < 6 then .weak
  else if password.length < 10 then .medium
  else if varietyCount password ≥ 3 then .strong
  else .medium

/-- `validatePassword` (validation.ts lines 25-30): non-empty and at
least 6 characters. -/
def validatePassword (password : String) : Bool :=
  if password = "" then false else password.length ≥ 6

/-- Claim C1 (amended): for every login/register call, if the backend
call and both storage writes succeed, the operation returns success,
sets the user and persists the token and the serialized user record;
if the backend call fails, it returns failure with the classified
message, leaves the user unchanged and writes neither key; if the
backend call succeeds but a storage write fails, it returns failure
and leaves the user unchanged (though a write performed before the
failing one is not rolled back). -/
theorem loginRegister_contract :
    ∀ (em pw : String) (st : Storage) (f : StorageFaults) (u : User) (tok : String)
      (e : AuthErr) (u0 : Option User),
    (f.setTokenFails = false → f.setUserFails = false →
      login em pw st f (.ok (u, tok)) u0 =
        ⟨true, none, some u, none, false, ⟨some tok, some (serializeUser u)⟩,
          "/auth/login", (em, pw)⟩ ∧
      register em pw st f (.ok (u, tok)) u0 =
        ⟨true, none, some u, none, false, ⟨some tok, some (serializeUser u)⟩,
          "/auth/register", (em, pw)⟩) ∧
    (login em pw st f (.error e) u0 =
        ⟨false, some (handleAuthError e), u0, some (handleAuthError e), false, st,
          "/auth/login", (em, pw)⟩ ∧
      register em pw st f (.error e) u0 =
        ⟨false, some (handleAuthError e), u0, some (handleAuthError e), false, st,
          "/auth/register", (em, pw)⟩) ∧
    ((f.setTokenFails = true ∨ f.setUserFails = true) →
      (login em pw st f (.ok (u, tok)) u0).success = false ∧
      (login em pw st f (.ok (u, tok)) u0).user = u0 ∧
      (register em pw st f (.ok (u, tok)) u0).success = false ∧
      (register em pw st f (.ok (u, tok)) u0).user = u0) := by
  intro em pw st f u tok e u0
  refine ⟨fun h1 h2 => ?_, ⟨rfl, rfl⟩, fun h => ?_⟩
  · simp [login, register, h1, h2]
  · rcases h with h | h <;> cases hf : f.setTokenFails <;>
      simp [login, register, h, hf]

/-- Witness for C1: concrete successful login and a concrete backend
failure, hypotheses discharged at healthy storage. -/
theorem loginRegister_contract_witness :
    login "a@b.com" "secret" ⟨none, none⟩ noFaults
        (.ok (⟨"1", "a@b.com", "c", "u"⟩, "tok123")) none =
      ⟨true, none, some ⟨"1", "a@b.com", "c", "u"⟩, none, false,
        ⟨some "tok123", some (serializeUser ⟨"1", "a@b.com", "c", "u"⟩)⟩,
        "/auth/login", ("a@b.com", "secret")⟩ ∧
    (login "a@b.com" "secret" ⟨none, none⟩ ⟨false, false, true, false, false⟩
        (.ok (⟨"1", "a@b.com", "c", "u"⟩, "tok123")) none).success = false :=
  ⟨((loginRegister_contract "a@b.com" "secret" ⟨none, none⟩ noFaults
      ⟨"1", "a@b.com", "c", "u"⟩ "tok123" .other none).1 rfl rfl).1,
    ((loginRegister_contract "a@b.com" "secret" ⟨none, none⟩ ⟨false, false, true, false, false⟩
      ⟨"1", "a@b.com", "c", "u"⟩ "tok123" .other none).2.2 (Or.inl rfl)).1⟩

/-- Counterexample to C1 as stated: the backend call succeeds, the
token write succeeds, the user-record write fails; the operation
returns failure, yet the key auth_token was written — so a failed
operation does not always persist nothing, and a successful backend
call does not always yield a success result. -/
theorem login_partial_persist_cx :
    (login "a@b.com" "secret" ⟨none, none⟩ ⟨false, false, false, true, false⟩
      (.ok (⟨"1", "a@b.com", "c", "u"⟩, "tok123")) none).success = false ∧
    (login "a@b.com" "secret" ⟨none, none⟩ ⟨false, false, false, true, false⟩
      (.ok (⟨"1", "a@b.com", "c", "u"⟩, "tok123")) none).store.authToken = some "tok123" := by
  decide

/-- Claim C2: the error classification of login/register maps each
failure to exactly the specified user-facing message: no response,
400 with a non-empty field-error list, 401, 409, 500, and any other
status with or without a non-empty server-supplied message. -/
theorem handleAuthError_spec :
    handleAuthError .noResponse =
      "Unable to connect to server. Please check your internet connection." ∧
    (∀ (i : ApiErrInfo) (v : ValidationError) (rest : List ValidationError),
      i.errors = some (v :: rest) →
      handleAuthError (.httpError 400 ⟨some i⟩) = v.message) ∧
    (∀ b : ErrorBody, handleAuthError (.httpError 401 b) = "Invalid email or password.") ∧
    (∀ b : ErrorBody,
      handleAuthError (.httpError 409 b) = "An account with this email already exists.") ∧
    (∀ b : ErrorBody,
      handleAuthError (.httpError 500 b) = "Something went wrong. Please try again later.") ∧
    (∀ (s : Nat) (i : ApiErrInfo), s ≠ 400 → s ≠ 401 → s ≠ 409 → s ≠ 500 →
      i.message ≠ "" → handleAuthError (.httpError s ⟨some i⟩) = i.message) ∧
    (∀ (s : Nat) (i : ApiErrInfo), s ≠ 400 → s ≠ 401 → s ≠ 409 → s ≠ 500 →
      i.message = "" → handleAuthError (.httpError s ⟨some i⟩) = "An unexpected error occurred.") ∧
    (∀ s : Nat, s ≠ 400 → s ≠ 401 → s ≠ 409 → s ≠ 500 →
      handleAuthError (.httpError s ⟨none⟩) = "An unexpected error occurred.") := by
  refine ⟨rfl, ?_, ?_, ?_, ?_, ?_, ?_, ?_⟩
  · intro i v rest h
    simp [handleAuthError, h]
  · intro b
    simp [handleAuthError]
  · intro b
    simp [handleAuthError]
  · intro b
    simp [handleAuthError]
  · intro s i h0 h1 h9 h5 hm
    simp [handleAuthError, h0, h1, h9, h5, hm]
  · intro s i h0 h1 h9 h5 hm
    simp [handleAuthError, h0, h1, h9, h5, hm]
  · intro s h0 h1 h9 h5
    simp [handleAuthError, h0, h1, h9, h5]

/-- Witness for C2: the 400 field-error case and an unlisted status
with a server-supplied message, at concrete inputs. -/
theorem handleAuthError_spec_witness :
    handleAuthError (.httpError 400 ⟨some ⟨"m", some [⟨"email", "bad email"⟩]⟩⟩) = "bad email" ∧
    handleAuthError (.httpError 418 ⟨some ⟨"teapot", none⟩⟩) = "teapot" :=
  ⟨handleAuthError_spec.2.1 ⟨"m", some [⟨"email", "bad email"⟩]⟩ ⟨"email", "bad email"⟩ [] rfl,
    handleAuthError_spec.2.2.2.2.2.1 418 ⟨"teapot", none⟩ (by decide) (by decide) (by decide)
      (by decide) (by decide)⟩

/-- Claim C3 (amended): when a storage read fails, or when both stored
values are present (truthy) and the user record fails to parse, the
restore ends with no authenticated user and — provided the cleanup
removal itself succeeds — both keys removed.  A malformed user record
whose companion token is absent is left in storage untouched, because
the guard skips the parse entirely. -/
theorem restore_corrupt_clears :
    ∀ (st : Storage) (f : StorageFaults),
    f.removeFails = false →
    (f.getTokenFails = true ∨ f.getUserFails = true ∨
      (truthy st.authToken = true ∧ truthy st.authUser = true ∧
        parseUserJson (st.authUser.getD "") = none)) →
    checkAuthStatus st f = ⟨none, ⟨none, none⟩, false, false⟩ := by
  intro st f hrm h
  cases hgt : f.getTokenFails <;> cases hgu : f.getUserFails <;>
    rcases h with h | h | ⟨h1, h2, h3⟩ <;>
      simp_all [checkAuthStatus, restoreCatch]

/-- Witness for C3: a present token with a malformed user record and a
healthy store ends cleared and unauthenticated. -/
theorem restore_corrupt_clears_witness :
    checkAuthStatus ⟨some "tok", some "x\x7d"⟩ noFaults = ⟨none, ⟨none, none⟩, false, false⟩ :=
  restore_corrupt_clears ⟨some "tok", some "x\x7d"⟩ noFaults rfl
    (Or.inr (Or.inr ⟨by decide, by decide, by decide⟩))

/-- Counterexample to C3 as stated: the stored user record "x\x7d" is
not well-formed and all storage reads succeed, yet because the token
key is absent the code never reaches the parse, leaves the malformed
record in place and removes nothing — the keys are not cleared. -/
theorem restore_malformed_untouched_cx :
    parseUserJson "x\x7d" = none ∧
    checkAuthStatus ⟨none, some "x\x7d"⟩ noFaults =
      ⟨none, ⟨none, some "x\x7d"⟩, false, false⟩ := by
  decide

/-- Claim C4: the response interceptor, on any error carrying a 401
response, attempts exactly one removal of the key auth_token and
rejects with the very same error object; on any error carrying a
response with another status it attempts no storage operation and
rejects with the same error object. -/
theorem interceptor401_spec :
    ∀ e : AxiosErrorM,
    (e.status = some 401 →
      (responseErrorInterceptor e).1 = [.removeItem TOKEN_KEY] ∧
      (responseErrorInterceptor e).1.count (.removeItem TOKEN_KEY) = 1 ∧
      (responseErrorInterceptor e).2 = e) ∧
    (∀ s : Nat, e.status = some s → s ≠ 401 →
      (responseErrorInterceptor e).1 = [] ∧ (responseErrorInterceptor e).2 = e) := by
  intro e
  constructor
  · intro h
    refine ⟨by simp [responseErrorInterceptor, h], ?_, by simp [responseErrorInterceptor, h]⟩
    simp [responseErrorInterceptor, h]
  · intro s hs hne
    have hne2 : e.status ≠ some 401 := by
      rw [hs]
      simp [hne]
    simp [responseErrorInterceptor, hne2]

/-- Witness for C4: a concrete 401 error and a concrete 500 error. -/
theorem interceptor401_spec_witness :
    (responseErrorInterceptor ⟨some 401, 7⟩).1 = [.removeItem TOKEN_KEY] ∧
    (responseErrorInterceptor ⟨some 500, 7⟩).1 = [] :=
  ⟨((interceptor401_spec ⟨some 401, 7⟩).1 rfl).1,
    ((interceptor401_spec ⟨some 500, 7⟩).2 500 rfl (by decide)).1⟩

/-- Claim C5 (code bug): under the uniform backend error shape, where
`err.response.data.error` is an object, the change-password 401
handler evaluates `toLowerCase` on that object and throws a TypeError
that escapes the catch block — so at the failing input (a 401 whose
message indicates the current password is wrong) no field error is
shown, and at a 401 with any other message no logout is triggered. -/
theorem changePassword401_object_throws :
    handleChangePasswordCatch ⟨some ⟨401, .errObj "Current password is incorrect" 401⟩, ""⟩ =
      ⟨none, false, true⟩ ∧
    handleChangePasswordCatch ⟨some ⟨401, .errObj "Invalid or expired token" 401⟩, ""⟩ =
      ⟨none, false, true⟩ := by
  decide

/-- Claim C6: logout never rejects and always ends with loading false;
whenever the storage removal succeeds, both keys end absent, the user
is unset and the error is cleared, regardless of prior state. -/
theorem logout_contract :
    ∀ (st : Storage) (f : StorageFaults) (u0 : Option User) (e0 : Option String),
    (logout st f u0 e0).threw = false ∧
    (logout st f u0 e0).loading = false ∧
    (f.removeFails = false →
      logout st f u0 e0 = ⟨none, none, false, ⟨none, none⟩, false⟩) := by
  intro st f u0 e0
  cases h : f.removeFails <;> simp [logout, h]

/-- Witness for C6: a concrete logout from a populated session on a
healthy store. -/
theorem logout_contract_witness :
    logout ⟨some "t", some "u"⟩ noFaults (some ⟨"1", "e", "c", "d"⟩) (some "oops") =
      ⟨none, none, false, ⟨none, none⟩, false⟩ :=
  (logout_contract ⟨some "t", some "u"⟩ noFaults (some ⟨"1", "e", "c", "d"⟩) (some "oops")).2.2 rfl

/-- Claim C7: whenever authentication transitions from false to true,
the navigator effect resets the main screen to home, for every local
navigator state (in particular when it was settings or
change-password). -/
theorem authTransition_resets_home :
    ∀ s : NavState, (authChangeStep false true s).mainScreen = .home := by
  intro s
  simp [authChangeStep, authEffect]

/-- Claim C8: a password shorter than 6 characters is weak; one of
length at least 10 containing at least 3 of the 4 character classes is
strong; every other non-empty password is medium. -/
theorem passwordStrength_spec :
    ∀ p : String,
    (p.length < 6 → calculatePasswordStrength p = .weak) ∧
    (10 ≤ p.length → 3 ≤ varietyCount p → calculatePasswordStrength p = .strong) ∧
    (p ≠ "" → 6 ≤ p.length → (p.length < 10 ∨ varietyCount p < 3) →
      calculatePasswordStrength p = .medium) := by
  intro p
  refine ⟨fun h => ?_, fun h1 h2 => ?_, fun hne h6 h => ?_⟩
  · simp [calculatePasswordStrength, h]
  · unfold calculatePasswordStrength
    rw [if_neg (by omega), if_neg (by omega), if_pos h2]
  · unfold calculatePasswordStrength
    rw [if_neg (by omega)]
    by_cases hl : p.length < 10
    · rw [if_pos hl]
    · rw [if_neg hl, if_neg (by omega)]

/-- Witness for C8: one password of each bucket. -/
theorem passwordStrength_spec_witness :
    calculatePasswordStrength "abc" = .weak ∧
    calculatePasswordStrength "Abcdefg1!x" = .strong ∧
    calculatePasswordStrength "abcdefghij" = .medium :=
  ⟨(passwordStrength_spec "abc").1 (by decide),
    (passwordStrength_spec "Abcdefg1!x").2.1 (by decide) (by decide),
    (passwordStrength_spec "abcdefghij").2.2 (by decide) (by decide) (by decide)⟩

/-- Claim C9 (amended): restoreSession always completes with loading
false, and it can only reject when the cleanup removal performed after
a read or parse failure itself fails; in every state where the removal
succeeds (in particular whenever no exception reaches the catch
block), it resolves without propagating an error. -/
theorem restore_resolves :
    ∀ (st : Storage) (f : StorageFaults),
    (checkAuthStatus st f).loading = false ∧
    ((checkAuthStatus st f).threw = true → f.removeFails = true) := by
  intro st f
  constructor
  · unfold checkAuthStatus restoreCatch
    repeat' split
    all_goals rfl
  · unfold checkAuthStatus restoreCatch
    repeat' split
    all_goals simp_all

/-- Witness for C9: at a state whose token read and cleanup removal
both fail, the run ends with loading false and did reject, so the
removal indeed failed. -/
theorem restore_resolves_witness :
    (checkAuthStatus ⟨some "t", some "u"⟩ ⟨true, false, false, false, true⟩).loading = false ∧
    (⟨true, false, false, false, true⟩ : StorageFaults).removeFails = true :=
  ⟨(restore_resolves ⟨some "t", some "u"⟩ ⟨true, false, false, false, true⟩).1,
    (restore_resolves ⟨some "t", some "u"⟩ ⟨true, false, false, false, true⟩).2 (by decide)⟩

/-- Counterexample to C9 as stated: when the token read fails and the
cleanup removal also fails, the promise returned by restoreSession
rejects (the loading flag is still reset by the finally block). -/
theorem restore_reject_cx :
    (checkAuthStatus ⟨some "t", some "u"⟩ ⟨true, false, false, false, true⟩).threw = true ∧
    (checkAuthStatus ⟨some "t", some "u"⟩ ⟨true, false, false, false, true⟩).loading = false := by
  decide

/-- Claim C10: when exactly one of the two persisted values is present
and storage reads succeed, the restore ends with no authenticated user
and the storage entirely unchanged — the remaining value is neither
used nor deleted. -/
theorem restore_single_key_frame :
    ∀ (st : Storage) (f : StorageFaults),
    f.getTokenFails = false → f.getUserFails = false →
    ((st.authToken.isSome = true ∧ st.authUser = none) ∨
      (st.authToken = none ∧ st.authUser.isSome = true)) →
    checkAuthStatus st f = ⟨none, st, false, false⟩ := by
  intro st f h1 h2 h
  rcases h with ⟨ha, hb⟩ | ⟨ha, hb⟩ <;>
    simp [checkAuthStatus, h1, h2, truthy, ha, hb]

/-- Witness for C10: a stored token with no stored user record is left
alone and yields no session. -/
theorem restore_single_key_frame_witness :
    checkAuthStatus ⟨some "tok", none⟩ noFaults = ⟨none, ⟨some "tok", none⟩, false, false⟩ :=
  restore_single_key_frame ⟨some "tok", none⟩ noFaults rfl rfl (Or.inl ⟨rfl, rfl⟩)

end HireEase

